import Mathlib

/-!
Shallow embedding of `pysc2/env/mock_sc2_env.py`.

The file embeds the two layers of the module:

* `_TestEnvironment` (the generic episode engine): `EnvState`, `initEnv`,
  `stepResult`, `reset`, together with the helper decomposition
  `producedTimestep` / `afterStep` that mirrors the body of
  `_TestEnvironment.step` (the local variable `timestep` computed by the
  three-way branch, then the counter update).
* `SC2TestEnv` (the spec-driven fixture): the keyword-only guard
  (`sc2TestEnvGuard`), the agent-count derivation from the player roster
  (`numAgentsOf`), the constructor (`sc2TestEnvInit`), the visual
  render-buffer allocation of `_default_observation` (`renderDataOf`), and
  the minimap-camera post-processing (`minimapCameraPost`).

Python floats only ever hold the exact values 0. and 1. here, or are passed
through untouched, so rewards and discounts are modelled as `Rat`.
`episode_length` is `float('inf')` by default and an integer when set, so it
is modelled as `Option Nat` with `Option.none` standing for infinity.
-/

namespace MockSC2Env

/-- `environment.StepType`: the three step types used by the module. -/
inductive StepType
  | FIRST
  | MID
  | LAST
  deriving DecidableEq

/-- `environment.TimeStep`, a namedtuple `(step_type, reward, discount,
observation)`.  The observation payload is opaque to the engine, hence the
type parameter. -/
structure TimeStep (Obs : Type) where
  step_type : StepType
  reward : Rat
  discount : Rat
  observation : Obs
  deriving DecidableEq

/-- The mutable state of a `_TestEnvironment` instance: `self._num_agents`,
`self.next_timestep`, `self.episode_length` (`Option.none` models the
default `float('inf')`) and `self._episode_steps`.

The derived tuples `self._observation_spec = (observation_spec,) * n` and
`self._action_spec = (action_spec,) * n` are never read by `reset`/`step`
and no claim concerns the accessors, so they are not carried in the state. -/
structure EnvState (Obs : Type) where
  numAgents : Nat
  nextTimestep : TimeStep Obs
  episodeLength : Option Nat
  episodeSteps : Nat
  deriving DecidableEq

/-- `_TestEnvironment.__init__`: counter 0, template timestep
`(MID, 0., 1., default observation)`, episode length `float('inf')`. -/
def initEnv {Obs : Type} (numAgents : Nat) (defaultObs : Obs) : EnvState Obs :=
  { numAgents := numAgents
    nextTimestep :=
      { step_type := StepType.MID
        reward := 0
        discount := 1
        observation := defaultObs }
    episodeLength := Option.none
    episodeSteps := 0 }

/-- The message of the `ValueError` raised on an action-count mismatch:
`'Expected %d actions, received %d.' % (num_agents, len(actions))`. -/
def errMsg (expected received : Nat) : String :=
  "Expected " ++ toString expected ++ " actions, received " ++
    toString received ++ "."

/-- `self._episode_steps >= self.episode_length`; always false against the
default `float('inf')` length. -/
def limitReached {Obs : Type} (s : EnvState Obs) : Bool :=
  match s.episodeLength with
  | Option.none => false
  | Option.some len => decide (len ≤ s.episodeSteps)

/-- The local `timestep` computed by `_TestEnvironment.step`:

* counter 0: `next_timestep._replace(step_type=FIRST, reward=0., discount=1.)`;
* counter at or past the episode length:
  `next_timestep._replace(step_type=LAST)`;
* otherwise `next_timestep` itself, unchanged. -/
def producedTimestep {Obs : Type} (s : EnvState Obs) : TimeStep Obs :=
  if s.episodeSteps = 0 then
    { s.nextTimestep with
        step_type := StepType.FIRST
        reward := 0
        discount := 1 }
  else if limitReached s then
    { s.nextTimestep with step_type := StepType.LAST }
  else
    s.nextTimestep

/-- The counter update at the end of `_TestEnvironment.step`: reset to 0 when
the produced timestep is LAST, otherwise incremented by one. -/
def afterStep {Obs : Type} (s : EnvState Obs) : EnvState Obs :=
  if (producedTimestep s).step_type = StepType.LAST then
    { s with episodeSteps := 0 }
  else
    { s with episodeSteps := s.episodeSteps + 1 }

/-- `_TestEnvironment.step(actions)`.  The first component is the returned
list of timesteps (`[timestep] * num_agents`) or the `ValueError`; the second
is the state after the call.  The arity check precedes every mutation in the
source, so the error branch returns the state unchanged. -/
def stepResult {Obs Act : Type} (s : EnvState Obs) (actions : List (Option Act)) :
    Except String (List (TimeStep Obs)) × EnvState Obs :=
  if actions.length ≠ s.numAgents then
    (Except.error (errMsg s.numAgents actions.length), s)
  else
    (Except.ok (List.replicate s.numAgents (producedTimestep s)), afterStep s)

/-- `[None] * n`, the neutral actions `reset` passes to `step`. -/
def neutralActions (n : Nat) : List (Option Unit) :=
  List.replicate n Option.none

/-- `_TestEnvironment.reset()`: sets `self._episode_steps = 0` and returns
`self.step([None] * self._num_agents)`. -/
def reset {Obs : Type} (s : EnvState Obs) :
    Except String (List (TimeStep Obs)) × EnvState Obs :=
  stepResult { s with episodeSteps := 0 } (neutralActions s.numAgents)

/-- Drive the engine through `n` successive `step` calls with neutral
actions, recording the step type of the first returned timestep of each call
(`Option.none` when the call returned no timestep). -/
def runSteps {Obs : Type} : EnvState Obs → Nat → List (Option StepType) × EnvState Obs
  | s, 0 => ([], s)
  | s, Nat.succ k =>
    let r := stepResult s (neutralActions s.numAgents)
    let t : Option StepType :=
      match r.1 with
      | Except.ok (ts :: _) => Option.some ts.step_type
      | _ => Option.none
    let rest := runSteps r.2 k
    (t :: rest.1, rest.2)

/-- A Python value in the first (positional) parameter slot of
`SC2TestEnv.__init__`, i.e. what `_only_use_kwargs` is bound to.  Only its
truthiness matters to the guard. -/
inductive PyVal
  | none
  | bool (b : Bool)
  | int (n : Int)
  | str (s : String)
  deriving DecidableEq

/-- Python truthiness of a `PyVal`: `None`, `False`, `0` and `''` are falsy. -/
def PyVal.truthy : PyVal → Bool
  | PyVal.none => false
  | PyVal.bool b => b
  | PyVal.int n => decide (n ≠ 0)
  | PyVal.str s => decide (s ≠ "")

/-- The message of the `ValueError` raised by the keyword-only guard. -/
def kwargsMsg : String :=
  "All arguments must be passed as keyword arguments."

/-- The keyword-only guard at the top of `SC2TestEnv.__init__`:
`if _only_use_kwargs: raise ValueError(...)`.  Calling the constructor with
all options by name leaves `_only_use_kwargs = None`. -/
def sc2TestEnvGuard (onlyUseKwargs : PyVal) : Except String Unit :=
  if onlyUseKwargs.truthy then Except.error kwargsMsg else Except.ok ()

/-- A participant of the `players` roster: an `sc2_env.Agent` instance or an
`sc2_env.Bot` instance. -/
inductive Participant
  | agent
  | bot
  deriving DecidableEq

/-- `sum(1 for p in players if isinstance(p, sc2_env.Agent))`. -/
def agentControlledCount (players : List Participant) : Nat :=
  players.countP (fun p => decide (p = Participant.agent))

/-- The agent-count derivation of `SC2TestEnv.__init__`:
`if not players: num_agents = 1 else: num_agents = sum(...)`.
`not players` is true both for `None` and for the empty list. -/
def numAgentsOf (players : Option (List Participant)) : Nat :=
  match players with
  | Option.none => 1
  | Option.some ps => if ps = [] then 1 else agentControlledCount ps

/-- The engine state built by `SC2TestEnv.__init__` after the guard: the
base-class constructor with the derived agent count, then
`self.episode_length = 10`. -/
def sc2TestEnvInit {Obs : Type} (players : Option (List Participant))
    (defaultObs : Obs) : EnvState Obs :=
  { initEnv (numAgentsOf players) defaultObs with episodeLength := Option.some 10 }

/-- Byte length of the zero buffer allocated by the local `fill` helper of
`SC2TestEnv._default_observation`:
`int(math.ceil(size[0] * size[1] * bits / 8))`.  The float arithmetic is
exact for these integer ranges, so this is ceiling division. -/
def fillBytes (h w bits : Nat) : Nat :=
  (h * w * bits + 7) / 8

/-- The part of the observation spec consulted by the visual-render branch of
`_default_observation`: the first two dimensions (`[:2]`, i.e. height and
width) of `obs_spec['rgb_screen']` and `obs_spec['rgb_minimap']`,
`Option.none` when the key is absent. -/
structure ObsSpecRGB where
  rgb_screen : Option (Nat × Nat)
  rgb_minimap : Option (Nat × Nat)
  deriving DecidableEq

/-- The visual render buffers of the synthesized observation: byte length of
the zero buffer written to `obs.render_data.map` resp.
`obs.render_data.minimap`, `Option.none` when the field is left untouched. -/
structure RenderData where
  map : Option Nat
  minimap : Option Nat
  deriving DecidableEq

/-- Lines 310-313 of `_default_observation`:

* `if 'rgb_screen' in obs_spec: fill(obs.render_data.map,
  obs_spec['rgb_screen'][:2], 24)`;
* `if 'rgb_screen' in obs_spec: fill(obs.render_data.minimap,
  obs_spec['rgb_minimap'][:2], 24)` — note that the second guard tests
  `'rgb_screen'` again while reading `obs_spec['rgb_minimap']`; the
  `Except.error` models the `KeyError` of that lookup. -/
def renderDataOf (spec : ObsSpecRGB) : Except String RenderData :=
  let mapBuf : Option Nat :=
    match spec.rgb_screen with
    | Option.some (h, w) => Option.some (fillBytes h w 24)
    | Option.none => Option.none
  match spec.rgb_screen with
  | Option.some _ =>
    match spec.rgb_minimap with
    | Option.some (h, w) =>
      Except.ok { map := mapBuf, minimap := Option.some (fillBytes h w 24) }
    | Option.none => Except.error "KeyError: rgb_minimap"
  | Option.none => Except.ok { map := mapBuf, minimap := Option.none }

/-- `ndarray.fill(c)` on a whole (H, W) array, viewed as a function of the
row and column index. -/
def fillAll (c : Int) : Nat → Nat → Int :=
  fun _ _ => c

/-- `m[:h, :w].fill(c)`: overwrite the top-left `h × w` block, keep the rest. -/
def fillTopLeft (m : Nat → Nat → Int) (h w : Nat) (c : Int) : Nat → Nat → Int :=
  fun i j => if i < h ∧ j < w then c else m i j

/-- The minimap-camera post-processing of `_default_observation` on a camera
field of shape (H, W): `minimap_camera.fill(0)` followed by
`minimap_camera[:height, :width].fill(1)` with
`height, width = [dim // 2 for dim in minimap_camera.shape]`.  The original
contents `m0` are fully overwritten by the first fill. -/
def minimapCameraPost (H W : Nat) (m0 : Nat → Nat → Int) : Nat → Nat → Int :=
  let zeroed := fillAll 0
  let _ := m0
  fillTopLeft zeroed (H / 2) (W / 2) 1

/-- A configured `_TestEnvironment` whose `next_timestep` attribute has been
set (as the class docstring invites) to a template with `step_type = LAST`:
one agent, episode length 10, counter 1. -/
def templateLastState : EnvState Unit :=
  { numAgents := 1
    nextTimestep :=
      { step_type := StepType.LAST
        reward := 0
        discount := 1
        observation := () }
    episodeLength := Option.some 10
    episodeSteps := 1 }

/-- A default-configured one-agent engine with episode length 2. -/
def shortEnv : EnvState Unit :=
  { initEnv 1 () with episodeLength := Option.some 2 }

end MockSC2Env

namespace MockSC2Env

theorem stepResult_neutral {Obs : Type} (s : EnvState Obs) :
    stepResult s (neutralActions s.numAgents) =
      (Except.ok (List.replicate s.numAgents (producedTimestep s)), afterStep s) := by
  simp [stepResult, neutralActions]

theorem runSteps_succ {Obs : Type} (s : EnvState Obs) (k : Nat)
    (h : 1 ≤ s.numAgents) :
    runSteps s (k + 1) =
      (Option.some (producedTimestep s).step_type :: (runSteps (afterStep s) k).1,
        (runSteps (afterStep s) k).2) := by
  obtain ⟨n, hn⟩ : ∃ n, s.numAgents = n + 1 := ⟨s.numAgents - 1, by omega⟩
  simp only [runSteps, stepResult_neutral]
  simp [hn, List.replicate_succ]

theorem produced_first {Obs : Type} (s : EnvState Obs) (h : s.episodeSteps = 0) :
    producedTimestep s =
      { s.nextTimestep with
          step_type := StepType.FIRST
          reward := 0
          discount := 1 } := by
  simp [producedTimestep, h]

theorem produced_mid {Obs : Type} (s : EnvState Obs) (L : Nat)
    (hL : s.episodeLength = Option.some L) (h0 : s.episodeSteps ≠ 0)
    (hlt : s.episodeSteps < L) :
    producedTimestep s = s.nextTimestep := by
  simp [producedTimestep, h0, limitReached, hL, Nat.not_le.mpr hlt]

theorem produced_last {Obs : Type} (s : EnvState Obs) (L : Nat)
    (hL : s.episodeLength = Option.some L) (h0 : s.episodeSteps ≠ 0)
    (hge : L ≤ s.episodeSteps) :
    producedTimestep s = { s.nextTimestep with step_type := StepType.LAST } := by
  simp [producedTimestep, h0, limitReached, hL, hge]

theorem afterStep_of_last {Obs : Type} (s : EnvState Obs)
    (h : (producedTimestep s).step_type = StepType.LAST) :
    afterStep s = { s with episodeSteps := 0 } := by
  simp [afterStep, h]

theorem afterStep_of_not_last {Obs : Type} (s : EnvState Obs)
    (h : ¬ (producedTimestep s).step_type = StepType.LAST) :
    afterStep s = { s with episodeSteps := s.episodeSteps + 1 } := by
  simp [afterStep, h]

theorem afterStep_numAgents {Obs : Type} (s : EnvState Obs) :
    (afterStep s).numAgents = s.numAgents := by
  unfold afterStep; split <;> rfl

theorem afterStep_nextTimestep {Obs : Type} (s : EnvState Obs) :
    (afterStep s).nextTimestep = s.nextTimestep := by
  unfold afterStep; split <;> rfl

theorem afterStep_episodeLength {Obs : Type} (s : EnvState Obs) :
    (afterStep s).episodeLength = s.episodeLength := by
  unfold afterStep; split <;> rfl

theorem runSteps_one {Obs : Type} (s : EnvState Obs) (hn : 1 ≤ s.numAgents) :
    (runSteps s 1).1 = [Option.some (producedTimestep s).step_type] := by
  simpa [runSteps] using congrArg Prod.fst (runSteps_succ s 0 hn)

theorem runSteps_mid_segment {Obs : Type} (L k : Nat) :
    ∀ (s : EnvState Obs) (m : Nat),
      s.episodeLength = Option.some L →
      s.nextTimestep.step_type = StepType.MID →
      1 ≤ s.numAgents →
      s.episodeSteps ≠ 0 →
      s.episodeSteps + k ≤ L →
      (runSteps s (k + m)).1 =
        List.replicate k (Option.some StepType.MID) ++
          (runSteps { s with episodeSteps := s.episodeSteps + k } m).1 := by
  induction k with
  | zero =>
    intro s m _ _ _ _ _
    have hs : ({ s with episodeSteps := s.episodeSteps + 0 } : EnvState Obs) = s := rfl
    rw [hs, Nat.zero_add, List.replicate_zero, List.nil_append]
  | succ k ih =>
    intro s m hL hmid hn h0 hk
    have hlt : s.episodeSteps < L := by omega
    have hpm : producedTimestep s = s.nextTimestep := produced_mid s L hL h0 hlt
    have hnotlast : ¬ (producedTimestep s).step_type = StepType.LAST := by
      rw [hpm, hmid]; decide
    have hafter : afterStep s = { s with episodeSteps := s.episodeSteps + 1 } :=
      afterStep_of_not_last s hnotlast
    have harr : k + 1 + m = (k + m) + 1 := by omega
    rw [harr, runSteps_succ s (k + m) hn, hpm, hmid, hafter]
    have ih2 := ih { s with episodeSteps := s.episodeSteps + 1 } m hL hmid hn
      (Nat.succ_ne_zero _) (by show s.episodeSteps + 1 + k ≤ L; omega)
    rw [ih2]
    have hrec : ({ s with episodeSteps := s.episodeSteps + 1 + k } : EnvState Obs) =
        { s with episodeSteps := s.episodeSteps + (k + 1) } := by
      have ha : s.episodeSteps + 1 + k = s.episodeSteps + (k + 1) := by omega
      rw [ha]
    rw [hrec, List.replicate_succ, List.cons_append]

theorem runSteps_last_first {Obs : Type} (s : EnvState Obs) (L : Nat)
    (hL : s.episodeLength = Option.some L) (h1 : 1 ≤ L)
    (hsteps : s.episodeSteps = L) (hn : 1 ≤ s.numAgents) :
    (runSteps s 2).1 = [Option.some StepType.LAST, Option.some StepType.FIRST] := by
  have h0 : s.episodeSteps ≠ 0 := by omega
  have hp : producedTimestep s = { s.nextTimestep with step_type := StepType.LAST } :=
    produced_last s L hL h0 (by omega)
  have hlast : (producedTimestep s).step_type = StepType.LAST := by rw [hp]
  have haf : afterStep s = { s with episodeSteps := 0 } := afterStep_of_last s hlast
  rw [(by norm_num : (2 : Nat) = 1 + 1), runSteps_succ s 1 hn, hlast, haf]
  have hf3 : (producedTimestep ({ s with episodeSteps := 0 } : EnvState Obs)).step_type =
      StepType.FIRST := by
    rw [produced_first ({ s with episodeSteps := 0 } : EnvState Obs) rfl]
  rw [runSteps_one ({ s with episodeSteps := 0 } : EnvState Obs) hn, hf3]

/-- Claim C1, counterexample to the claim as stated: a configured
`_TestEnvironment` whose `next_timestep` template has `step_type = LAST`
(set through the documented public attribute), with counter 1 and episode
length 10.  The counter is neither 0 nor at the episode length, yet the
returned timesteps carry `step_type = LAST`, not MID: the middle branch of
`step` passes the template through unchanged, step type included. -/
theorem claim1_counterexample :
    (stepResult templateLastState [(Option.none : Option Unit)]).1 =
      Except.ok [{ step_type := StepType.LAST
                   reward := 0
                   discount := 1
                   observation := () }] ∧
    templateLastState.episodeSteps = 1 ∧
    templateLastState.episodeLength = Option.some 10 :=
  ⟨rfl, rfl, rfl⟩

/-- Claim C1 (amended): for every configured `_TestEnvironment` whose
template timestep has `step_type = MID` (the default, which the class itself
never changes), every successful `step` call returns `num_agents` copies of
one produced timestep; when the counter is 0 it is the template with
step type FIRST, reward forced to 0 and discount forced to 1; otherwise its
step type is LAST exactly when the counter has reached or exceeded the
configured episode length, and below the limit the template is passed
through entirely unchanged. -/
theorem claim1_step_type_contract {Obs Act : Type} (s : EnvState Obs)
    (acts : List (Option Act)) (harity : acts.length = s.numAgents)
    (hmid : s.nextTimestep.step_type = StepType.MID) :
    (stepResult s acts).1 =
      Except.ok (List.replicate s.numAgents (producedTimestep s)) ∧
    (s.episodeSteps = 0 →
      producedTimestep s =
        { s.nextTimestep with
            step_type := StepType.FIRST
            reward := 0
            discount := 1 }) ∧
    (s.episodeSteps ≠ 0 →
      ((producedTimestep s).step_type = StepType.LAST ↔ limitReached s = true) ∧
      (limitReached s = true →
        producedTimestep s = { s.nextTimestep with step_type := StepType.LAST }) ∧
      (limitReached s = false → producedTimestep s = s.nextTimestep)) := by
  refine ⟨by simp [stepResult, harity], fun h0 => produced_first s h0, fun h0 => ?_⟩
  cases hv : limitReached s
  · have hp : producedTimestep s = s.nextTimestep := by
      simp [producedTimestep, h0, hv]
    refine ⟨?_, by simp, fun _ => hp⟩
    rw [hp, hmid]
    simp
  · have hp : producedTimestep s = { s.nextTimestep with step_type := StepType.LAST } := by
      simp [producedTimestep, h0, hv]
    refine ⟨?_, fun _ => hp, by simp⟩
    rw [hp]
    simp

/-- Witness for C1 at a freshly-constructed one-agent engine. -/
theorem claim1_witness :
    (stepResult (initEnv 1 ()) [(Option.none : Option Unit)]).1 =
      Except.ok (List.replicate (initEnv 1 ()).numAgents
        (producedTimestep (initEnv 1 ()))) :=
  (claim1_step_type_contract (initEnv 1 ()) [Option.none] rfl rfl).1

/-- Claim C2, counterexample to the claim as stated: one agent, episode
length 2.  The three `step` calls made immediately after `reset()` has
returned yield MID, LAST, FIRST — not the claimed FIRST, MID, LAST — because
`reset` itself already delegates to `step` (consuming the FIRST transition
and leaving the counter at 1). -/
theorem claim2_counterexample :
    (runSteps (reset shortEnv).2 3).1 =
      [Option.some StepType.MID, Option.some StepType.LAST,
        Option.some StepType.FIRST] ∧
    [Option.some StepType.MID, Option.some StepType.LAST,
        Option.some StepType.FIRST] ≠
      [Option.some StepType.FIRST, Option.some StepType.MID,
        Option.some StepType.LAST] :=
  ⟨rfl, by decide⟩

/-- Claim C2 (amended): for every configured finite episode length L ≥ 1 and
agent count N ≥ 1, the L+1 successive `step` calls with N neutral actions
counted from a state whose counter is 0 — immediately after construction, or
counting `reset`'s own delegated `step` call as call 1 — yield FIRST on call
1, MID on calls 2..L, LAST on call L+1, and FIRST again on the following
call; the `SC2TestEnv` fixture fixes L to 10. -/
theorem claim2_episode_cycle {Obs : Type} (s : EnvState Obs) (L : Nat)
    (players : Option (List Participant)) (dObs : Obs)
    (hL : s.episodeLength = Option.some L) (h1 : 1 ≤ L)
    (h0 : s.episodeSteps = 0)
    (hmid : s.nextTimestep.step_type = StepType.MID)
    (hn : 1 ≤ s.numAgents) :
    (runSteps s (L + 2)).1 =
      Option.some StepType.FIRST ::
        (List.replicate (L - 1) (Option.some StepType.MID) ++
          [Option.some StepType.LAST, Option.some StepType.FIRST]) ∧
    (sc2TestEnvInit players dObs).episodeLength = Option.some 10 := by
  refine ⟨?_, rfl⟩
  obtain ⟨K, rfl⟩ : ∃ K, L = K + 1 := ⟨L - 1, by omega⟩
  have hfc : (producedTimestep s).step_type = StepType.FIRST := by
    rw [produced_first s h0]
  have hnotlast : ¬ (producedTimestep s).step_type = StepType.LAST := by
    rw [hfc]; decide
  have hafter : afterStep s = { s with episodeSteps := s.episodeSteps + 1 } :=
    afterStep_of_not_last s hnotlast
  have harr : K + 1 + 2 = (K + 2) + 1 := by omega
  rw [harr, runSteps_succ s (K + 2) hn, hfc, hafter, h0]
  have hseg := runSteps_mid_segment (K + 1) K
    ({ s with episodeSteps := 0 + 1 } : EnvState Obs) 2 hL hmid hn
    (by show 0 + 1 ≠ 0; omega) (by show 0 + 1 + K ≤ K + 1; omega)
  rw [hseg]
  have htail := runSteps_last_first
    ({ { s with episodeSteps := 0 + 1 } with
        episodeSteps := ({ s with episodeSteps := 0 + 1 } : EnvState Obs).episodeSteps + K }
      : EnvState Obs)
    (K + 1) hL (by omega) (by show 0 + 1 + K = K + 1; omega) hn
  rw [htail]
  simp

/-- Witness for C2 at the `SC2TestEnv` fixture configuration: one agent
(no roster), episode length 10, freshly constructed. -/
theorem claim2_witness :
    (runSteps (sc2TestEnvInit Option.none ()) 12).1 =
      Option.some StepType.FIRST ::
        (List.replicate 9 (Option.some StepType.MID) ++
          [Option.some StepType.LAST, Option.some StepType.FIRST]) ∧
    (sc2TestEnvInit Option.none ()).episodeLength = Option.some 10 := by
  have h := claim2_episode_cycle (sc2TestEnvInit Option.none ()) 10
    Option.none () rfl (by norm_num) rfl rfl (Nat.le_refl 1)
  simpa using h

/-- Claim C3 (confirmed): every successful `step` call returns exactly
`num_agents` timesteps, all identical (the module returns
`[timestep] * num_agents`), and so does `reset`. -/
theorem claim3_fanout {Obs Act : Type} (s : EnvState Obs)
    (acts : List (Option Act)) (harity : acts.length = s.numAgents) :
    (stepResult s acts).1 =
      Except.ok (List.replicate s.numAgents (producedTimestep s)) ∧
    (List.replicate s.numAgents (producedTimestep s)).length = s.numAgents ∧
    (∀ t ∈ List.replicate s.numAgents (producedTimestep s),
      t = producedTimestep s) ∧
    (reset s).1 =
      Except.ok (List.replicate s.numAgents
        (producedTimestep ({ s with episodeSteps := 0 } : EnvState Obs))) := by
  refine ⟨by simp [stepResult, harity], List.length_replicate _ _, ?_, ?_⟩
  · intro t ht; exact List.eq_of_mem_replicate ht
  · simp [reset, stepResult, neutralActions]

/-- Witness for C3 at a two-agent engine. -/
theorem claim3_witness :
    (stepResult (initEnv 2 ()) [(Option.none : Option Unit), Option.none]).1 =
      Except.ok (List.replicate (initEnv 2 ()).numAgents
        (producedTimestep (initEnv 2 ()))) :=
  (claim3_fanout (initEnv 2 ()) [Option.none, Option.none] rfl).1

/-- Claim C4 (confirmed): `reset` zeroes the counter and delegates to `step`
with one neutral action per agent; on any state whose counter is already 0
(immediately after construction, or immediately after a call that produced a
LAST timestep, which resets the counter to 0) `reset` returns the very same
result-and-state pair as that `step` call. -/
theorem claim4_reset_equiv {Obs : Type} (s : EnvState Obs) :
    reset s = stepResult ({ s with episodeSteps := 0 } : EnvState Obs)
      (neutralActions s.numAgents) ∧
    (s.episodeSteps = 0 → reset s = stepResult s (neutralActions s.numAgents)) ∧
    (∀ (Act : Type) (acts : List (Option Act)), acts.length = s.numAgents →
      (producedTimestep s).step_type = StepType.LAST →
      (stepResult s acts).2.episodeSteps = 0) := by
  refine ⟨rfl, ?_, ?_⟩
  · intro h0
    have hs : ({ s with episodeSteps := 0 } : EnvState Obs) = s := by
      rw [← h0]
    calc reset s
        = stepResult ({ s with episodeSteps := 0 } : EnvState Obs)
            (neutralActions s.numAgents) := rfl
      _ = stepResult s (neutralActions s.numAgents) := by rw [hs]
  · intro Act acts harity hlast
    have h2 : (stepResult s acts).2 = afterStep s := by simp [stepResult, harity]
    rw [h2, afterStep_of_last s hlast]

/-- Witness for C4 at a freshly-constructed three-agent engine. -/
theorem claim4_witness :
    reset (initEnv 3 ()) =
      stepResult (initEnv 3 ()) (neutralActions (initEnv 3 ()).numAgents) :=
  (claim4_reset_equiv (initEnv 3 ())).2.1 rfl

/-- Claim C5 (confirmed): `step` fails exactly when the action count differs
from the agent count; the `ValueError` message is the formatted string naming
the expected and the received counts; the failure leaves the state untouched,
and a subsequent call on the state behaves as if the failing call had never
happened. -/
theorem claim5_arity_error {Obs Act : Type} (s : EnvState Obs)
    (acts : List (Option Act)) :
    (acts.length ≠ s.numAgents →
      stepResult s acts = (Except.error (errMsg s.numAgents acts.length), s)) ∧
    (acts.length = s.numAgents →
      stepResult s acts =
        (Except.ok (List.replicate s.numAgents (producedTimestep s)),
          afterStep s)) ∧
    (∀ acts2 : List (Option Act), acts.length ≠ s.numAgents →
      stepResult (stepResult s acts).2 acts2 = stepResult s acts2) := by
  refine ⟨fun hne => by simp [stepResult, hne], fun heq => by simp [stepResult, heq], ?_⟩
  intro acts2 hne
  have h2 : (stepResult s acts).2 = s := by simp [stepResult, hne]
  rw [h2]

/-- Witness for C5: two agents, one action. -/
theorem claim5_witness :
    stepResult (initEnv 2 ()) [(Option.none : Option Unit)] =
      (Except.error (errMsg 2 1), initEnv 2 ()) :=
  (claim5_arity_error (initEnv 2 ()) [Option.none]).1 (by decide)

/-- Claim C10 (confirmed): for a finite configured episode length L ≥ 1, the
counter is 0 at construction, is reset to 0 by every successful call that
produces a LAST timestep and incremented by exactly 1 by every other
successful call, and consequently stays within [0, L] across every
successful `step` and `reset`. -/
theorem claim10_counter_invariant {Obs Act : Type} (n : Nat) (dObs : Obs)
    (L : Nat) (s : EnvState Obs) (acts : List (Option Act))
    (hL : s.episodeLength = Option.some L) (h1 : 1 ≤ L)
    (harity : acts.length = s.numAgents) (hinv : s.episodeSteps ≤ L) :
    (initEnv n dObs).episodeSteps = 0 ∧
    (stepResult s acts).2.episodeSteps ≤ L ∧
    ((producedTimestep s).step_type = StepType.LAST →
      (stepResult s acts).2.episodeSteps = 0) ∧
    ((producedTimestep s).step_type ≠ StepType.LAST →
      (stepResult s acts).2.episodeSteps = s.episodeSteps + 1) ∧
    (reset s).2.episodeSteps ≤ L := by
  have hs2 : (stepResult s acts).2 = afterStep s := by simp [stepResult, harity]
  refine ⟨rfl, ?_, ?_, ?_, ?_⟩
  · rw [hs2]
    by_cases hlast : (producedTimestep s).step_type = StepType.LAST
    · rw [afterStep_of_last s hlast]
      show (0 : Nat) ≤ L
      omega
    · rw [afterStep_of_not_last s hlast]
      show s.episodeSteps + 1 ≤ L
      by_cases h0 : s.episodeSteps = 0
      · omega
      · by_cases hge : L ≤ s.episodeSteps
        · exact absurd (by rw [produced_last s L hL h0 hge]) hlast
        · omega
  · intro hlast; rw [hs2, afterStep_of_last s hlast]
  · intro hlast; rw [hs2, afterStep_of_not_last s hlast]
  · have hres : (reset s).2 =
        afterStep ({ s with episodeSteps := 0 } : EnvState Obs) := by
      simp [reset, stepResult, neutralActions]
    have hf : (producedTimestep ({ s with episodeSteps := 0 } : EnvState Obs)).step_type
        = StepType.FIRST := by rw [produced_first _ rfl]
    have hnl : ¬ (producedTimestep
        ({ s with episodeSteps := 0 } : EnvState Obs)).step_type
        = StepType.LAST := by rw [hf]; decide
    rw [hres, afterStep_of_not_last _ hnl]
    show 0 + 1 ≤ L
    omega

/-- Witness for C10 at the `SC2TestEnv` fixture configuration. -/
theorem claim10_witness :
    (stepResult (sc2TestEnvInit Option.none ())
      [(Option.none : Option Unit)]).2.episodeSteps ≤ 10 :=
  (claim10_counter_invariant 1 () 10 (sc2TestEnvInit Option.none ())
    [Option.none] rfl (by norm_num) rfl (by decide)).2.1

/-- Claim C6 (confirmed): after the fixture's minimap-camera
post-processing — fill the whole (H, W) field with 0, then fill the top-left
`H/2 × W/2` block with 1 — every in-bounds cell holds 1 exactly on rows
[0, H/2) and columns [0, W/2), and 0 everywhere else, whatever the field
held before. -/
theorem claim6_minimap_camera (H W i j : Nat) (m0 : Nat → Nat → Int)
    (_hi : i < H) (_hj : j < W) :
    minimapCameraPost H W m0 i j =
      if i < H / 2 ∧ j < W / 2 then 1 else 0 := by
  unfold minimapCameraPost fillTopLeft fillAll
  by_cases h : i < H / 2 ∧ j < W / 2 <;> simp [h]

/-- Witness for C6 on a 32×32 camera field with arbitrary prior contents. -/
theorem claim6_witness :
    (3 : Nat) < 32 ∧ (20 : Nat) < 32 ∧
    minimapCameraPost 32 32 (fillAll 7) 3 5 = 1 ∧
    minimapCameraPost 32 32 (fillAll 7) 3 20 = 0 := by
  refine ⟨by norm_num, by norm_num, ?_, ?_⟩
  · have h := claim6_minimap_camera 32 32 3 5 (fillAll 7) (by norm_num) (by norm_num)
    simpa using h
  · have h := claim6_minimap_camera 32 32 3 20 (fillAll 7) (by norm_num) (by norm_num)
    simpa using h

/-- Claim C7 (code bug), evaluation at the failing input: with
`rgb_minimap = (64, 64)` declared and no `rgb_screen`, the fixture allocates
no visual minimap buffer at all, because line 312 of the source guards the
minimap fill with `if 'rgb_screen' in obs_spec` (a copy-paste of line 310)
while reading `obs_spec['rgb_minimap']`.  When both visual fields are
declared, both buffers do get the claimed `ceil(64*64*24/8) = 12288`
bytes. -/
theorem claim7_minimap_buffer_bug :
    renderDataOf { rgb_screen := Option.none, rgb_minimap := Option.some (64, 64) } =
      Except.ok { map := Option.none, minimap := Option.none } ∧
    renderDataOf
        { rgb_screen := Option.some (64, 64), rgb_minimap := Option.some (64, 64) } =
      Except.ok { map := Option.some 12288, minimap := Option.some 12288 } ∧
    fillBytes 64 64 24 = 12288 :=
  ⟨rfl, rfl, rfl⟩

/-- Claim C8, counterexample to the claim as stated: a falsy positional
first argument — `SC2TestEnv(None)`, `SC2TestEnv(0)` or `SC2TestEnv('')` —
slips through `if _only_use_kwargs:` and raises nothing. -/
theorem claim8_counterexample :
    sc2TestEnvGuard PyVal.none = Except.ok () ∧
    sc2TestEnvGuard (PyVal.int 0) = Except.ok () ∧
    sc2TestEnvGuard (PyVal.str "") = Except.ok () :=
  ⟨rfl, rfl, rfl⟩

/-- Claim C8 (amended): the constructor raises the invalid-configuration
`ValueError` exactly when the value landing in the positional
`_only_use_kwargs` slot is truthy; a falsy positional value is accepted
silently, and all-keyword construction (which leaves the slot at `None`)
succeeds. -/
theorem claim8_kwargs_guard (v : PyVal) :
    (v.truthy = true → sc2TestEnvGuard v = Except.error kwargsMsg) ∧
    (v.truthy = false → sc2TestEnvGuard v = Except.ok ()) ∧
    sc2TestEnvGuard PyVal.none = Except.ok () :=
  ⟨fun h => by simp [sc2TestEnvGuard, h], fun h => by simp [sc2TestEnvGuard, h], rfl⟩

/-- Witness for C8: a map name passed positionally is truthy and raises. -/
theorem claim8_witness :
    sc2TestEnvGuard (PyVal.str "nonexisting map") = Except.error kwargsMsg :=
  (claim8_kwargs_guard (PyVal.str "nonexisting map")).1 (by decide)

/-- Claim C9, counterexample to the claim as stated: a supplied empty
roster.  `if not players:` treats it like an absent roster, so the agent
count is 1, not the roster's number of agent-controlled participants,
which is 0. -/
theorem claim9_counterexample :
    numAgentsOf (Option.some []) = 1 ∧ agentControlledCount [] = 0 :=
  ⟨rfl, rfl⟩

/-- Claim C9 (amended): for every non-empty roster the fixture's agent count
equals the number of agent-controlled participants; it defaults to 1 when
the roster is absent — or empty, which the code treats the same way — and
this count is the N the fixture hands to the engine, governing both the
required action arity and the timestep fan-out. -/
theorem claim9_agent_count {Obs : Type} (ps : List Participant) (dObs : Obs)
    (hne : ps ≠ []) :
    numAgentsOf (Option.some ps) = agentControlledCount ps ∧
    numAgentsOf Option.none = 1 ∧
    numAgentsOf (Option.some []) = 1 ∧
    (sc2TestEnvInit (Option.some ps) dObs).numAgents =
      numAgentsOf (Option.some ps) ∧
    (∀ (Act : Type) (acts : List (Option Act)),
      acts.length ≠ numAgentsOf (Option.some ps) →
      (stepResult (sc2TestEnvInit (Option.some ps) dObs) acts).1 =
        Except.error (errMsg (numAgentsOf (Option.some ps)) acts.length)) ∧
    (stepResult (sc2TestEnvInit (Option.some ps) dObs)
        (neutralActions (numAgentsOf (Option.some ps)))).1 =
      Except.ok (List.replicate (numAgentsOf (Option.some ps))
        (producedTimestep (sc2TestEnvInit (Option.some ps) dObs))) := by
  refine ⟨by simp [numAgentsOf, hne], rfl, rfl, rfl, ?_, ?_⟩
  · intro Act acts hlen
    have hna : (sc2TestEnvInit (Option.some ps) dObs).numAgents
        = numAgentsOf (Option.some ps) := rfl
    simp [stepResult, hna, hlen]
  · exact congrArg Prod.fst (stepResult_neutral (sc2TestEnvInit (Option.some ps) dObs))

/-- Witness for C9 on the roster [Agent, Bot, Agent]. -/
theorem claim9_witness :
    numAgentsOf (Option.some [Participant.agent, Participant.bot, Participant.agent]) =
      agentControlledCount [Participant.agent, Participant.bot, Participant.agent] ∧
    agentControlledCount [Participant.agent, Participant.bot, Participant.agent] = 2 :=
  ⟨(claim9_agent_count [Participant.agent, Participant.bot, Participant.agent] ()
      (by decide)).1, by decide⟩

end MockSC2Env
